import Mathlib

/-!
Shallow embedding of `src/youtube project/app.py` (a Flask service that
extracts a YouTube video id from a URL, fetches a transcript through an
ordered fallback chain, and summarizes it via a generative-text HTTP API).

External collaborators (the `youtube_transcript_api` library, `requests`,
`xml.etree.ElementTree`, the generation service) are modelled as oracle
environments: each embedded function takes the outcomes of its outbound
calls as explicit arguments.  Exception *messages* built by external
libraries (`str(e)` of library exceptions, `requests` HTTPError rendering)
are abstracted to carried strings; no claim below depends on their exact
text.  Everything the repository's own code computes (control flow, joins,
status dispatch, retry/backoff arithmetic, URL parsing structure) is
translated directly from the source.
-/

set_option linter.unusedVariables false

namespace YTS

/-- A JSON value as produced by `response.json()` (Python objects from the
`json` module: `None`, `bool`, numbers, `str`, `list`, `dict`). -/
inductive JVal where
  | null
  | bool (b : Bool)
  | num (n : Int)
  | str (s : String)
  | arr (items : List JVal)
  | obj (fields : List (String × JVal))

/-- Python truthiness test (`if not x`) restricted to JSON values:
`None`, `False`, `0`, `""`, `[]`, and the empty dict are falsy. -/
def JVal.falsy : JVal → Bool
  | .null => true
  | .bool b => !b
  | .num n => n == 0
  | .str s => s == ""
  | .arr l => l.isEmpty
  | .obj l => l.isEmpty

/-- The Python exceptions the endpoint distinguishes.
`noTranscriptFound`, `transcriptsDisabled` and `couldNotRetrieve`
model the library classes `NoTranscriptFound`, `TranscriptsDisabled`
and a `CouldNotRetrieveTranscript` that is neither of the two subclasses;
`generic` models a plain `Exception`. -/
inductive PyExc where
  | noTranscriptFound (m : String)
  | transcriptsDisabled (m : String)
  | couldNotRetrieve (m : String)
  | generic (m : String)
deriving DecidableEq

/-- The message carried by an exception (`str(e)`, abstracted). -/
def PyExc.msg : PyExc → String
  | .noTranscriptFound m => m
  | .transcriptsDisabled m => m
  | .couldNotRetrieve m => m
  | .generic m => m

/-- Membership in the tuple caught by the endpoint:
`except (NoTranscriptFound, TranscriptsDisabled, CouldNotRetrieveTranscript)`.
All three transcript-layer classes qualify (the first two are subclasses of
the third in the library). -/
def PyExc.isTranscriptError : PyExc → Bool
  | .generic _ => false
  | _ => true

/-- Outcome of one `requests.post(GEMINI_URL, ...)` call:
either the call itself raised (network failure), or a response arrived
with an HTTP status code and a `response.json()` outcome (`.error` when
the body is not valid JSON). -/
inductive PostOutcome where
  | raise (m : String)
  | resp (status : Nat) (body : Except String JVal)

/-- Python `d.get(key, default)`: only defined on dicts, otherwise the
attribute lookup raises (`AttributeError`). -/
def pyGet (v : JVal) (key : String) (default : JVal) : Except String JVal :=
  match v with
  | .obj kvs => .ok (((kvs.find? (fun p => p.1 == key)).map (fun p => p.2)).getD default)
  | _ => .error "AttributeError"

/-- Python `x[0]`: first element of a list (IndexError when empty),
first character of a string, and a raised error on other JSON values. -/
def pyIndex0 : JVal → Except String JVal
  | .arr (x :: _) => .ok x
  | .arr [] => .error "IndexError: list index out of range"
  | .str s =>
    match s.data with
    | c :: _ => .ok (.str (String.mk [c]))
    | [] => .error "IndexError: string index out of range"
  | .obj _ => .error "KeyError: 0"
  | _ => .error "TypeError: not subscriptable"

/-- The extraction expression shared by `translate_text` and
`get_summary_gemini`:
`result.get('candidates', [{}])[0].get('content', {}).get('parts', [{}])[0].get('text', default)`.
Dynamic-typing errors surface as `.error` (they are raised in Python and
caught by the surrounding `except`). -/
def extractText (result : JVal) (default : JVal) : Except String JVal := do
  let cands ← pyGet result "candidates" (.arr [.obj []])
  let c0 ← pyIndex0 cands
  let content ← pyGet c0 "content" (.obj [])
  let parts ← pyGet content "parts" (.arr [.obj []])
  let p0 ← pyIndex0 parts
  pyGet p0 "text" default

/-- Python `' '.join(l)`. -/
def joinSpace (l : List String) : String := String.intercalate " " l

/-- `translate_text(text, source_lang)`: one POST to the generation
service, no retry.  `response.raise_for_status()` raises for any status in
`[400, 600)`; every exception is caught and turned into the string
`"Translation failed: ..."`.  On a well-formed response the `.get` chain
is evaluated with `text` (the input) as the final default. -/
def translate_text (post : PostOutcome) (text : String) (source_lang : String) : JVal :=
  match post with
  | .raise m => .str ("Translation failed: " ++ m)
  | .resp status body =>
    if 400 ≤ status ∧ status < 600 then
      .str ("Translation failed: HTTP " ++ toString status)
    else
      match body with
      | .error m => .str ("Translation failed: " ++ m)
      | .ok j =>
        match extractText j (.str text) with
        | .error m => .str ("Translation failed: " ++ m)
        | .ok v => v

/-- `retries` constant of `get_summary_gemini` (`retries, delay = 5, 2`). -/
def retries : Nat := 5

/-- How one loop iteration of `get_summary_gemini` ends. -/
inductive SummaryExit where
  | returned (v : JVal)
  | raised (e : PyExc)
  | fellThrough

/-- Result of one iteration of the retry loop: either continue to the
next attempt (`retry`, after sleeping) or leave the loop (`done`). -/
inductive StepResult where
  | retry
  | done (e : SummaryExit)

/-- One iteration of the `for attempt in range(retries)` body of
`get_summary_gemini`, given the outcome of this attempt's POST:
`raise_for_status` failures with status 429/500/503 retry while
`attempt < retries - 1`; any other HTTPError raises
`Exception("Gemini API error: ...")`; every non-HTTPError exception
(network failure, JSON decode failure, extraction type errors) raises
`Exception("Gemini API call failed: ...")`; a clean response returns the
extracted text with default `'Summary failed.'`. -/
def attemptStep (o : PostOutcome) (attempt : Nat) : StepResult :=
  match o with
  | .raise m => .done (.raised (.generic ("Gemini API call failed: " ++ m)))
  | .resp status body =>
    if 400 ≤ status ∧ status < 600 then
      if (status = 429 ∨ status = 500 ∨ status = 503) ∧ attempt < retries - 1 then
        .retry
      else
        .done (.raised (.generic ("Gemini API error: HTTP " ++ toString status)))
    else
      match body with
      | .error m => .done (.raised (.generic ("Gemini API call failed: " ++ m)))
      | .ok j =>
        match extractText j (.str "Summary failed.") with
        | .error m => .done (.raised (.generic ("Gemini API call failed: " ++ m)))
        | .ok v => .done (.returned v)

/-- Instrumented run of `get_summary_gemini`: how the loop ended, the
trace of `time.sleep` delays, and how many POSTs were issued. -/
structure SummaryRun where
  exit : SummaryExit
  sleeps : List Nat
  postCount : Nat

/-- The retry loop of `get_summary_gemini`, fuelled by the remaining
iteration count.  `posts n` is the outcome of the POST of attempt `n`;
`attempt` is the current index and `delay` the current backoff value
(doubled after each sleep, `delay *= 2`).  Exhausting the fuel models
falling off the end of the `for` loop. -/
def summaryLoop (posts : Nat → PostOutcome) : Nat → Nat → Nat → SummaryRun
  | 0, _, _ => ⟨.fellThrough, [], 0⟩
  | fuel + 1, attempt, delay =>
    match attemptStep (posts attempt) attempt with
    | .done e => ⟨e, [], 1⟩
    | .retry =>
      let r := summaryLoop posts fuel (attempt + 1) (delay * 2)
      ⟨r.exit, delay :: r.sleeps, r.postCount + 1⟩

/-- `get_summary_gemini(transcript)`: the loop started with
`retries = 5`, `attempt = 0`, `delay = 2`. -/
def get_summary_gemini (posts : Nat → PostOutcome) : SummaryRun :=
  summaryLoop posts retries 0 2

/-- The value `get_summary_gemini` produces for its caller: the returned
text, the raised exception, or — if the loop were ever to fall through —
the trailing `return "Summary generation failed."`. -/
def summaryResult (posts : Nat → PostOutcome) : Except PyExc JVal :=
  match (get_summary_gemini posts).exit with
  | .returned v => .ok v
  | .raised e => .error e
  | .fellThrough => .ok (.str "Summary generation failed.")

/-- An `xml.etree.ElementTree` element: tag, text before the first child
(`Element.text`, `none` when absent), and the list of direct children. -/
inductive Xml where
  | elem (tag : String) (text : Option String) (children : List Xml)

/-- Tag of an element. -/
def Xml.tag : Xml → String
  | .elem t _ _ => t

/-- Inner text of an element (`Element.text`). -/
def Xml.innerText : Xml → Option String
  | .elem _ t _ => t

/-- Direct children of an element. -/
def Xml.children : Xml → List Xml
  | .elem _ _ c => c

/-- Outcome of the `requests.get` in `get_fallback_captions`: either the
call raised, or a response arrived with status code, body text, and the
outcome `ET.fromstring(body)` would produce on that body (`.error` models
a `ParseError`). -/
inductive GetOutcome where
  | raise (m : String)
  | resp (status : Nat) (body : String) (parsed : Except String Xml)

/-- `[node.text for node in root.findall('text') if node.text]`:
the inner texts of the direct children tagged `text`, dropping `None`
and empty strings (both falsy in Python). -/
def fallbackTexts (root : Xml) : List String :=
  root.children.filterMap fun n =>
    if n.tag == "text" then
      match n.innerText with
      | some t => if t == "" then none else some t
      | none => none
    else none

/-- Python `str.strip()`: remove whitespace from both ends. -/
def pyStrip (s : String) : String :=
  String.mk (((s.data.dropWhile Char.isWhitespace).reverse.dropWhile Char.isWhitespace).reverse)

/-- `get_fallback_captions(video_id)`: GET the timedtext endpoint; on a
200 response with non-blank body, parse the XML and join the non-empty
caption lines with spaces; otherwise raise `NoTranscriptFound`, which the
surrounding `except Exception` re-wraps — so every failure surfaces as a
`NoTranscriptFound` whose message starts with
`"Fallback captions failed for video <id>: "`. -/
def get_fallback_captions (o : GetOutcome) (video_id : String) : Except PyExc String :=
  match o with
  | .raise m =>
    .error (.noTranscriptFound ("Fallback captions failed for video " ++ video_id ++ ": " ++ m))
  | .resp status body parsed =>
    if status = 200 ∧ pyStrip body ≠ "" then
      match parsed with
      | .error m =>
        .error (.noTranscriptFound ("Fallback captions failed for video " ++ video_id ++ ": " ++ m))
      | .ok root => .ok (joinSpace (fallbackTexts root))
    else
      .error (.noTranscriptFound
        ("Fallback captions failed for video " ++ video_id ++
          ": No transcripts or captions available for video " ++ video_id ++ "."))

/-- One transcript track as enumerated by
`YouTubeTranscriptApi.list_transcripts`: its language code, its
human-readable language name, and the outcome of `transcript.fetch()`
(segment texts in order, or a raised exception). -/
structure Track where
  language_code : String
  language : String
  fetch : Except PyExc (List String)

/-- Oracle environment for one `get_transcript` call: outcomes of the
`languages=['en']` fetch, the `languages=['a.en']` fetch, the
`list_transcripts` enumeration, the POST the Translator would issue, and
the timedtext GET of the fallback scrape.  Successful fetches deliver the
segment texts (`d['text']`) in order. -/
structure FetchEnv where
  fetchEn : Except PyExc (List String)
  fetchAEn : Except PyExc (List String)
  listT : Except PyExc (List Track)
  translatePost : PostOutcome
  timedtext : GetOutcome

/-- Trace entry: one outbound step `get_transcript` performed. -/
inductive FetchCall where
  | fetchEn
  | fetchAEn
  | listTranscripts
  | trackFetch (code : String)
  | translator (text : String) (lang : String)
  | fallback
deriving DecidableEq

/-- `get_transcript(video_id)`, instrumented with the trace of steps it
performs.  Control flow translated from the nested `try/except`:

* `['en']` fetch succeeds → join with spaces, done.
* `['en']` raises `NoTranscriptFound` → try `['a.en']`; inside that
  handler a `NoTranscriptFound` leads to `list_transcripts`, whose
  exceptions (and those of `transcript.fetch()`) propagate raw; the first
  track with `language_code != 'en'` is fetched, joined and passed to
  `translate_text` together with `transcript.language`; with no such
  track, `get_fallback_captions` is called (its exceptions propagate
  raw).  Any other exception of the `['a.en']` fetch is re-raised as
  `Exception("Transcript retrieval error: ...")`.
* `['en']` raises `TranscriptsDisabled` → straight to
  `get_fallback_captions`.
* `['en']` raises another `CouldNotRetrieveTranscript` → re-raised with a
  `"Transcript Error: ..."` message; a plain `Exception` propagates raw. -/
def get_transcript (env : FetchEnv) (video_id : String) :
    Except PyExc JVal × List FetchCall :=
  match env.fetchEn with
  | .ok segs => (.ok (.str (joinSpace segs)), [.fetchEn])
  | .error (.noTranscriptFound _) =>
    match env.fetchAEn with
    | .ok segs => (.ok (.str (joinSpace segs)), [.fetchEn, .fetchAEn])
    | .error (.noTranscriptFound _) =>
      match env.listT with
      | .error e => (.error e, [.fetchEn, .fetchAEn, .listTranscripts])
      | .ok tracks =>
        match tracks.find? (fun t => t.language_code != "en") with
        | some t =>
          match t.fetch with
          | .error e =>
            (.error e, [.fetchEn, .fetchAEn, .listTranscripts, .trackFetch t.language_code])
          | .ok segs =>
            (.ok (translate_text env.translatePost (joinSpace segs) t.language),
             [.fetchEn, .fetchAEn, .listTranscripts, .trackFetch t.language_code,
              .translator (joinSpace segs) t.language])
        | none =>
          ((get_fallback_captions env.timedtext video_id).map .str,
           [.fetchEn, .fetchAEn, .listTranscripts, .fallback])
    | .error e2 =>
      (.error (.generic ("Transcript retrieval error: " ++ e2.msg)), [.fetchEn, .fetchAEn])
  | .error (.transcriptsDisabled _) =>
    ((get_fallback_captions env.timedtext video_id).map .str, [.fetchEn, .fallback])
  | .error (.couldNotRetrieve m) =>
    (.error (.couldNotRetrieve
      ("Transcript Error: Could not retrieve transcript for video (ID: " ++ video_id ++
        "). Reason: " ++ m)), [.fetchEn])
  | .error (.generic m) => (.error (.generic m), [.fetchEn])

/-- Hex digit value, as accepted by `urllib.parse.unquote`. -/
def hexVal (c : Char) : Option Nat :=
  if '0' ≤ c ∧ c ≤ '9' then some (c.toNat - '0'.toNat)
  else if 'a' ≤ c ∧ c ≤ 'f' then some (c.toNat - 'a'.toNat + 10)
  else if 'A' ≤ c ∧ c ≤ 'F' then some (c.toNat - 'A'.toNat + 10)
  else none

/-- Percent-decoding of `urllib.parse.unquote`: `%XY` with two hex digits
becomes the character with that code, malformed escapes are left as-is.
(Multi-byte UTF-8 percent sequences decode byte-by-byte here; the
repository only ever feeds ASCII ids through this path.) -/
def percentDecode : List Char → List Char
  | [] => []
  | '%' :: a :: b :: rest =>
    match hexVal a, hexVal b with
    | some x, some y => Char.ofNat (16 * x + y) :: percentDecode rest
    | _, _ => '%' :: percentDecode (a :: b :: rest)
  | '%' :: rest => '%' :: percentDecode rest
  | c :: rest => c :: percentDecode rest

/-- `urllib.parse.unquote_plus`: `+` becomes a space, then
percent-escapes are decoded. -/
def unquote_plus (s : String) : String :=
  String.mk (percentDecode (s.data.map fun c => if c == '+' then ' ' else c))

/-- The characters before the first occurrence of `sep`
(`s.split(sep, 1)[0]`). -/
def beforeFirst (sep : Char) : List Char → List Char
  | [] => []
  | c :: rest => if c == sep then [] else c :: beforeFirst sep rest

/-- The characters after the first occurrence of `sep`, or `none` when
`sep` does not occur (`s.split(sep, 1)[1]` guarded by `sep in s`). -/
def afterFirst (sep : Char) : List Char → Option (List Char)
  | [] => none
  | c :: rest => if c == sep then some rest else afterFirst sep rest

/-- `s.split(sep)`: split into fields at every occurrence of `sep`
(adjacent separators give empty fields, as in Python). -/
def splitOnCharAll (sep : Char) : List Char → List (List Char)
  | [] => [[]]
  | c :: rest =>
    match splitOnCharAll sep rest with
    | [] => [[c]]
    | g :: gs => if c == sep then [] :: g :: gs else (c :: g) :: gs

/-- The `query` component of `urllib.parse.urlparse(url)`: the fragment
(everything from the first `#`) is split off first, then the query is
everything after the first `?` of what remains (empty when there is no
`?`). -/
def urlQuery (url : String) : String :=
  String.mk ((afterFirst '?' (beforeFirst '#' url.data)).getD [])

/-- `urllib.parse.parse_qsl` with the defaults used by `parse_qs`
(`keep_blank_values=False`, `strict_parsing=False`, separator `&`):
fields are split on `&`, each field on its first `=`; fields without `=`
and fields with an empty value are dropped; names and values are
unquoted. -/
def parse_qsl (qs : String) : List (String × String) :=
  (splitOnCharAll '&' qs.data).filterMap fun field =>
    match afterFirst '=' field with
    | none => none
    | some valueChars =>
      if valueChars = [] then none
      else some (unquote_plus (String.mk (beforeFirst '=' field)),
        unquote_plus (String.mk valueChars))

/-- Character class `[a-zA-Z0-9_-]` of the short-link pattern. -/
def isIdChar (c : Char) : Bool :=
  c.isAlphanum || c == '_' || c == '-'

/-- Match of `youtu\.be/([a-zA-Z0-9_-]\x7b11\x7d)` anchored at the start
of `cs`: the literal `youtu.be/` followed by exactly 11 class
characters, returning the captured group. -/
def shortMatchAt (cs : List Char) : Option String :=
  let lit := "youtu.be/".data
  if cs.take lit.length = lit then
    let cap := (cs.drop lit.length).take 11
    if cap.length = 11 ∧ cap.all isIdChar then some (String.mk cap) else none
  else none

/-- `re.search(r'youtu\.be/([a-zA-Z0-9_-]\x7b11\x7d)', url)`: try the
pattern at each position, left to right, returning the first capture. -/
def reSearch : List Char → Option String
  | [] => none
  | c :: cs =>
    match shortMatchAt (c :: cs) with
    | some s => some s
    | none => reSearch cs

/-- `get_video_id(url)`: the first value of the `v` query parameter when
present (`parse_qs(urlparse(url).query)`), else the capture of the
short-link regex, else `None`. -/
def get_video_id (url : String) : Option String :=
  match (parse_qsl (urlQuery url)).find? (fun p => p.1 == "v") with
  | some p => some p.2
  | none => reSearch url.data

/-- Oracle environment for one request to `GET /summary`: the Fetcher's
environment and the summarizer's sequence of POST outcomes. -/
structure ApiEnv where
  fetch : FetchEnv
  posts : Nat → PostOutcome

/-- The JSON error body `jsonify(\x7b"error": m\x7d)`. -/
def errBody (m : String) : JVal :=
  .obj [("error", .str m)]

/-- `summary_api()`: the endpoint handler, as status code and JSON body.
`request.args.get('url', '')` is the optional `url` query parameter;
falsy url → 400, no extractable id → 400; then the `try` block fetches
and summarizes, and its raised exceptions are dispatched: transcript
exceptions → 404 with `str(e)`, anything else → 500 with the fixed
generic body. -/
def summary_api (env : ApiEnv) (urlArg : Option String) : Nat × JVal :=
  let url := urlArg.getD ""
  if url = "" then (400, errBody "No URL provided.")
  else
    match get_video_id url with
    | none => (400, errBody "Invalid YouTube URL format.")
    | some vid =>
      if vid = "" then (400, errBody "Invalid YouTube URL format.")
      else
        match
          (match (get_transcript env.fetch vid).1 with
            | .error e => .error e
            | .ok t =>
              if t.falsy then .ok (404, errBody "Transcript is empty.")
              else
                match summaryResult env.posts with
                | .error e => .error e
                | .ok s => .ok (200, JVal.obj [("summary", s)])
            : Except PyExc (Nat × JVal)) with
        | .ok r => r
        | .error e =>
          if e.isTranscriptError then (404, errBody e.msg)
          else (500, errBody "Internal error occurred. Ensure video has English captions.")

/-- Example POST trace: the generation service answers HTTP 503 with a
non-JSON body forever. -/
def posts503 : Nat → PostOutcome := fun _ => .resp 503 (.error "boom")

/-- Example POST trace: a clean 200 answer carrying one candidate whose
first part is the text `"sum"`. -/
def postsOk : Nat → PostOutcome := fun _ =>
  .resp 200 (.ok (.obj [("candidates",
    .arr [.obj [("content", .obj [("parts", .arr [.obj [("text", .str "sum")]])])]])]))

/-- Example Fetcher environment: the preferred English fetch raises
`NoTranscriptFound`, the auto-generated English fetch raises
`TranscriptsDisabled`. -/
def envDisabledAEn : FetchEnv :=
  { fetchEn := .error (.noTranscriptFound "nt")
    fetchAEn := .error (.transcriptsDisabled "dis")
    listT := .ok []
    translatePost := .raise "net"
    timedtext := .resp 200 "<transcript><text>a</text></transcript>"
      (.ok (.elem "transcript" none [.elem "text" (some "a") []])) }

/-- Example Fetcher environment: both English fetches raise
`NoTranscriptFound` and the track enumeration raises
`TranscriptsDisabled`. -/
def envDisabledList : FetchEnv :=
  { envDisabledAEn with
    fetchAEn := .error (.noTranscriptFound "nt2")
    listT := .error (.transcriptsDisabled "dis") }

/-- Example Fetcher environment: the preferred English fetch raises
`TranscriptsDisabled`; the timedtext scrape answers 200 with one caption
line `"a"`. -/
def envDisabledEn : FetchEnv :=
  { envDisabledAEn with fetchEn := .error (.transcriptsDisabled "dis") }

/-- Example Fetcher environment: the preferred English fetch succeeds
with segments `["Hello", "world"]`. -/
def envEnOk : FetchEnv :=
  { envDisabledAEn with fetchEn := .ok ["Hello", "world"] }

/-- Example Fetcher environment: both English fetches raise
`NoTranscriptFound`; enumeration offers a French track whose fetch
succeeds with `["Bonjour", "le", "monde"]`; the Translator's POST fails
on the network. -/
def envFrench : FetchEnv :=
  { envDisabledAEn with
    fetchAEn := .error (.noTranscriptFound "nt2")
    listT := .ok [⟨"fr", "French", .ok ["Bonjour", "le", "monde"]⟩] }

/-! ### Helper lemmas about the summarizer retry loop -/

/-- One iteration retries exactly on a 429/500/503 response while
attempts remain (`attempt < retries - 1`). -/
theorem attemptStep_retry_iff (o : PostOutcome) (a : Nat) :
    attemptStep o a = .retry ↔
      ∃ s b, o = .resp s b ∧ (s = 429 ∨ s = 500 ∨ s = 503) ∧ a < retries - 1 := by
  constructor
  · intro h
    cases o with
    | raise m => simp [attemptStep] at h
    | resp s b =>
      refine ⟨s, b, rfl, ?_⟩
      by_cases h1 : 400 ≤ s ∧ s < 600
      · by_cases h2 : (s = 429 ∨ s = 500 ∨ s = 503) ∧ a < retries - 1
        · exact h2
        · simp [attemptStep, h1, h2] at h
      · cases b with
        | error m => simp [attemptStep, h1] at h
        | ok j =>
          cases hx : extractText j (.str "Summary failed.") <;>
            simp [attemptStep, h1, hx] at h
  · rintro ⟨s, b, rfl, hs, ha⟩
    have h1 : 400 ≤ s ∧ s < 600 := by rcases hs with rfl | rfl | rfl <;> omega
    simp only [attemptStep]
    rw [if_pos h1, if_pos ⟨hs, ha⟩]

/-- One iteration never "does" a fall-through exit. -/
theorem attemptStep_ne_fellThrough (o : PostOutcome) (a : Nat) :
    attemptStep o a ≠ .done .fellThrough := by
  cases o with
  | raise m => simp [attemptStep]
  | resp s b =>
    by_cases h1 : 400 ≤ s ∧ s < 600
    · by_cases h2 : (s = 429 ∨ s = 500 ∨ s = 503) ∧ a < retries - 1 <;>
        simp [attemptStep, h1, h2]
    · cases b with
      | error m => simp [attemptStep, h1]
      | ok j =>
        cases hx : extractText j (.str "Summary failed.") <;>
          simp [attemptStep, h1, hx]

/-- Every exception the loop raises is a plain `Exception`. -/
theorem attemptStep_raised_generic (o : PostOutcome) (a : Nat) (e : PyExc)
    (h : attemptStep o a = .done (.raised e)) : ∃ m, e = .generic m := by
  cases o with
  | raise m =>
    simp [attemptStep] at h
    exact ⟨_, h.symm⟩
  | resp s b =>
    by_cases h1 : 400 ≤ s ∧ s < 600
    · by_cases h2 : (s = 429 ∨ s = 500 ∨ s = 503) ∧ a < retries - 1
      · simp [attemptStep, h1, h2] at h
      · simp [attemptStep, h1, h2] at h
        exact ⟨_, h.symm⟩
    · cases b with
      | error m =>
        simp [attemptStep, h1] at h
        exact ⟨_, h.symm⟩
      | ok j =>
        cases hx : extractText j (.str "Summary failed.") with
        | error m =>
          simp [attemptStep, h1, hx] at h
          exact ⟨_, h.symm⟩
        | ok v => simp [attemptStep, h1, hx] at h

/-- The loop issues at most `fuel` POSTs. -/
theorem summaryLoop_postCount_le (posts : Nat → PostOutcome) :
    ∀ fuel attempt delay, (summaryLoop posts fuel attempt delay).postCount ≤ fuel := by
  intro fuel
  induction fuel with
  | zero => intro attempt delay; simp [summaryLoop]
  | succ n ih =>
    intro attempt delay
    unfold summaryLoop
    cases h : attemptStep (posts attempt) attempt with
    | done e => simp
    | retry => simpa using ih (attempt + 1) (delay * 2)

/-- With fuel remaining, the loop issues at least one POST. -/
theorem summaryLoop_postCount_pos (posts : Nat → PostOutcome)
    (fuel attempt delay : Nat) (hf : 0 < fuel) :
    1 ≤ (summaryLoop posts fuel attempt delay).postCount := by
  cases fuel with
  | zero => omega
  | succ n =>
    unfold summaryLoop
    cases h : attemptStep (posts attempt) attempt with
    | done e => simp
    | retry => simp

/-- As long as fuel remains, the loop never exits by falling through,
provided attempt counting is consistent (`fuel + attempt = retries`):
on the final attempt the retry guard `attempt < retries - 1` is false, so
every branch returns or raises. -/
theorem summaryLoop_no_fellThrough (posts : Nat → PostOutcome) :
    ∀ fuel attempt delay, fuel + attempt = retries → 0 < fuel →
      (summaryLoop posts fuel attempt delay).exit ≠ .fellThrough := by
  intro fuel
  induction fuel with
  | zero => intro attempt delay hinv hf; omega
  | succ n ih =>
    intro attempt delay hinv hf
    unfold summaryLoop
    cases h : attemptStep (posts attempt) attempt with
    | done e =>
      intro hc
      simp at hc
      exact attemptStep_ne_fellThrough (posts attempt) attempt (hc ▸ h)
    | retry =>
      have hn : 0 < n := by
        have ha := (attemptStep_retry_iff (posts attempt) attempt).1 h
        obtain ⟨s, b, _, _, hlt⟩ := ha
        simp [retries] at hlt hinv ⊢
        omega
      simpa using ih (attempt + 1) (delay * 2) (by omega) hn

/-- Whatever exception the loop raises is a plain `Exception`
(`"Gemini API error: ..."` or `"Gemini API call failed: ..."`). -/
theorem summaryLoop_raised_generic (posts : Nat → PostOutcome) :
    ∀ fuel attempt delay e,
      (summaryLoop posts fuel attempt delay).exit = .raised e → ∃ m, e = .generic m := by
  intro fuel
  induction fuel with
  | zero => intro attempt delay e h; simp [summaryLoop] at h
  | succ n ih =>
    intro attempt delay e h
    unfold summaryLoop at h
    cases hs : attemptStep (posts attempt) attempt with
    | done x =>
      rw [hs] at h
      simp at h
      exact attemptStep_raised_generic (posts attempt) attempt e (h ▸ hs)
    | retry =>
      rw [hs] at h
      simp at h
      exact ih (attempt + 1) (delay * 2) e h

/-- The sleep trace is geometric: starting from the current `delay` and
doubling, one sleep per retry (`postCount - 1` of them). -/
theorem summaryLoop_sleeps (posts : Nat → PostOutcome) :
    ∀ fuel attempt delay, fuel + attempt = retries → 0 < fuel →
      (summaryLoop posts fuel attempt delay).sleeps =
        (List.range ((summaryLoop posts fuel attempt delay).postCount - 1)).map
          (fun i => delay * 2 ^ i) := by
  intro fuel
  induction fuel with
  | zero => intro attempt delay hinv hf; omega
  | succ n ih =>
    intro attempt delay hinv hf
    unfold summaryLoop
    cases h : attemptStep (posts attempt) attempt with
    | done e => simp
    | retry =>
      have hn : 0 < n := by
        obtain ⟨s, b, _, _, hlt⟩ := (attemptStep_retry_iff (posts attempt) attempt).1 h
        simp [retries] at hlt hinv
        omega
      have hih := ih (attempt + 1) (delay * 2) (by omega) hn
      have hpc := summaryLoop_postCount_pos posts n (attempt + 1) (delay * 2) hn
      show delay :: (summaryLoop posts n (attempt + 1) (delay * 2)).sleeps =
        List.map (fun i => delay * 2 ^ i)
          (List.range ((summaryLoop posts n (attempt + 1) (delay * 2)).postCount + 1 - 1))
      rw [Nat.add_sub_cancel, hih]
      obtain ⟨k, hk⟩ : ∃ k, (summaryLoop posts n (attempt + 1) (delay * 2)).postCount = k + 1 :=
        ⟨_, (Nat.succ_pred_eq_of_pos hpc).symm⟩
      rw [hk, Nat.add_sub_cancel, List.range_succ_eq_map, List.map_cons, List.map_map]
      congr 1
      · simp
      · congr 1
        funext i
        simp [Function.comp, pow_succ]
        ring

/-- Each attempt that was followed by another attempt ended in a
retryable response: status 429, 500 or 503. -/
theorem summaryLoop_retry_status (posts : Nat → PostOutcome) :
    ∀ fuel attempt delay i,
      i + 1 < (summaryLoop posts fuel attempt delay).postCount →
      ∃ s b, posts (attempt + i) = .resp s b ∧ (s = 429 ∨ s = 500 ∨ s = 503) := by
  intro fuel
  induction fuel with
  | zero => intro attempt delay i hi; simp [summaryLoop] at hi
  | succ n ih =>
    intro attempt delay i hi
    unfold summaryLoop at hi
    cases h : attemptStep (posts attempt) attempt with
    | done e => rw [h] at hi; simp at hi
    | retry =>
      rw [h] at hi
      simp at hi
      obtain ⟨s, b, he, hs, _⟩ := (attemptStep_retry_iff (posts attempt) attempt).1 h
      cases i with
      | zero => exact ⟨s, b, by simpa using he, hs⟩
      | succ k =>
        have := ih (attempt + 1) (delay * 2) k (by omega)
        simpa [Nat.add_assoc, Nat.add_comm 1 k] using this

/-- If the last attempt's POST produced an HTTP-error status, the loop
raised (it did not return a value): either the status was retryable on
the final attempt (exhaustion) or it was non-retryable. -/
theorem summaryLoop_last_error_raises (posts : Nat → PostOutcome) :
    ∀ fuel attempt delay, fuel + attempt = retries → 0 < fuel →
      ∀ s b, posts (attempt + ((summaryLoop posts fuel attempt delay).postCount - 1)) = .resp s b →
        400 ≤ s → s < 600 →
        ∃ m, (summaryLoop posts fuel attempt delay).exit = .raised (.generic m) := by
  intro fuel
  induction fuel with
  | zero => intro attempt delay hinv hf; omega
  | succ n ih =>
    intro attempt delay hinv hf s b hpost h4 h6
    unfold summaryLoop at hpost ⊢
    cases h : attemptStep (posts attempt) attempt with
    | done e =>
      rw [h] at hpost
      simp at hpost ⊢
      rw [hpost] at h
      simp only [attemptStep] at h
      rw [if_pos ⟨h4, h6⟩] at h
      split_ifs at h with h2
      injection h with h
      exact ⟨_, h.symm⟩
    | retry =>
      rw [h] at hpost
      simp at hpost ⊢
      have hn : 0 < n := by
        obtain ⟨s2, b2, _, _, hlt⟩ := (attemptStep_retry_iff (posts attempt) attempt).1 h
        simp [retries] at hlt hinv
        omega
      have hpc := summaryLoop_postCount_pos posts n (attempt + 1) (delay * 2) hn
      refine ih (attempt + 1) (delay * 2) (by omega) hn s b ?_ h4 h6
      rw [← hpost]
      congr 1
      omega

/-- The doubling sequence started at 2, cut to `k ≤ 4` terms, is the
prefix of `[2, 4, 8, 16]`. -/
theorem geometric_take (k : Nat) (hk : k ≤ 4) :
    (List.range k).map (fun i => 2 * 2 ^ i) = List.take k [2, 4, 8, 16] := by
  interval_cases k <;> rfl

/-- Any exception surfacing from `get_summary_gemini` is a plain
`Exception` (never one of the transcript classes). -/
theorem summaryResult_error_generic (posts : Nat → PostOutcome) (e : PyExc)
    (h : summaryResult posts = .error e) : ∃ m, e = .generic m := by
  unfold summaryResult at h
  cases hx : (get_summary_gemini posts).exit with
  | returned v => rw [hx] at h; simp at h
  | raised e2 =>
    rw [hx] at h
    simp at h
    exact h ▸ summaryLoop_raised_generic posts retries 0 2 e2 hx
  | fellThrough => rw [hx] at h; simp at h

/-! ### Claims C2 and C10: the summarizer retry policy -/

/-- C2: For every transcript input, the Summarizer makes at most 5
attempts total; it retries only when the generation service responds
with HTTP status 429, 500 or 503, sleeping 2 time-units before the
first retry and doubling the delay after each retry (2, 4, 8, 16); any
non-retryable HTTP error, or exhaustion of the 5 attempts, signals
`SummarizationError` carrying the last error rather than returning a
value. -/
theorem claim_C2_summarizer_retry_policy (posts : Nat → PostOutcome) :
    (get_summary_gemini posts).postCount ≤ 5 ∧
    (get_summary_gemini posts).sleeps =
      List.take ((get_summary_gemini posts).postCount - 1) [2, 4, 8, 16] ∧
    (∀ i, i + 1 < (get_summary_gemini posts).postCount →
      ∃ s b, posts i = .resp s b ∧ (s = 429 ∨ s = 500 ∨ s = 503)) ∧
    (∀ s b, posts ((get_summary_gemini posts).postCount - 1) = .resp s b →
      400 ≤ s → s < 600 →
      ∃ m, (get_summary_gemini posts).exit = .raised (.generic m) ∧
        summaryResult posts = .error (.generic m)) := by
  have hinv : retries + 0 = retries := rfl
  have hf : 0 < retries := by simp [retries]
  refine ⟨?_, ?_, ?_, ?_⟩
  · have := summaryLoop_postCount_le posts retries 0 2
    simpa [get_summary_gemini, retries] using this
  · have hs := summaryLoop_sleeps posts retries 0 2 hinv hf
    have hle : (get_summary_gemini posts).postCount - 1 ≤ 4 := by
      have := summaryLoop_postCount_le posts retries 0 2
      simp only [get_summary_gemini]
      simp [retries] at this ⊢
      omega
    calc (get_summary_gemini posts).sleeps
        = (List.range ((get_summary_gemini posts).postCount - 1)).map (fun i => 2 * 2 ^ i) := hs
      _ = List.take ((get_summary_gemini posts).postCount - 1) [2, 4, 8, 16] :=
          geometric_take _ hle
  · intro i hi
    have := summaryLoop_retry_status posts retries 0 2 i hi
    simpa using this
  · intro s b hp h4 h6
    obtain ⟨m, hm⟩ := summaryLoop_last_error_raises posts retries 0 2 hinv hf s b (by simpa using hp) h4 h6
    refine ⟨m, hm, ?_⟩
    unfold summaryResult
    rw [show (get_summary_gemini posts).exit = .raised (.generic m) from hm]

/-- Witness for C2 at the concrete trace where the service answers 503
forever: the hypotheses of the exhaustion conjunct are discharged at
status 503 on the final attempt. -/
theorem claim_C2_summarizer_retry_policy_witness :
    ∃ m, (get_summary_gemini posts503).exit = .raised (.generic m) ∧
      summaryResult posts503 = .error (.generic m) :=
  (claim_C2_summarizer_retry_policy posts503).2.2.2 503 (.error "boom") rfl
    (by decide) (by decide)

/-- C10: For every transcript input, the Summarizer either returns a
string from within its retry loop or raises an error; the trailing
`return "Summary generation failed."` after the loop is unreachable,
because on the final (5th) attempt every branch either returns the
response text or raises. -/
theorem claim_C10_trailing_return_unreachable (posts : Nat → PostOutcome) :
    ((∃ v, (get_summary_gemini posts).exit = .returned v) ∨
      (∃ e, (get_summary_gemini posts).exit = .raised e)) ∧
    (get_summary_gemini posts).exit ≠ .fellThrough := by
  have h := summaryLoop_no_fellThrough posts retries 0 2 rfl (by simp [retries])
  constructor
  · cases hx : (get_summary_gemini posts).exit with
    | returned v => exact Or.inl ⟨v, rfl⟩
    | raised e => exact Or.inr ⟨e, rfl⟩
    | fellThrough => exact absurd hx h
  · exact h

/-! ### Claims C4 and C5: the transcript fallback chain -/

/-- C4: For every VideoID, the Fetcher first requests the
manually-provided English transcript track and, on success, returns the
segment texts joined in order with single spaces without attempting any
fallback; only on a "no transcript in this language" failure does it
request the auto-generated English track (`a.en`), returning its
segments joined the same way on success. -/
theorem claim_C4_preferred_english_first (env : FetchEnv) (vid : String) :
    (∀ segs, env.fetchEn = .ok segs →
      get_transcript env vid = (.ok (.str (joinSpace segs)), [.fetchEn])) ∧
    (FetchCall.fetchAEn ∈ (get_transcript env vid).2 →
      ∃ m, env.fetchEn = .error (.noTranscriptFound m)) ∧
    (∀ m segs, env.fetchEn = .error (.noTranscriptFound m) → env.fetchAEn = .ok segs →
      get_transcript env vid = (.ok (.str (joinSpace segs)), [.fetchEn, .fetchAEn])) := by
  refine ⟨?_, ?_, ?_⟩
  · intro segs h
    simp [get_transcript, h]
  · intro hmem
    cases he : env.fetchEn with
    | ok segs => simp [get_transcript, he] at hmem
    | error e =>
      cases e with
      | noTranscriptFound m => exact ⟨m, rfl⟩
      | transcriptsDisabled m => simp [get_transcript, he] at hmem
      | couldNotRetrieve m => simp [get_transcript, he] at hmem
      | generic m => simp [get_transcript, he] at hmem
  · intro m segs h1 h2
    simp [get_transcript, h1, h2]

/-- Witness for C4: the preferred English fetch succeeds with
`["Hello", "world"]`, so the Fetcher answers `"Hello world"` having
performed only that one step. -/
theorem claim_C4_preferred_english_first_witness :
    get_transcript envEnOk "vid" =
      (.ok (.str (joinSpace ["Hello", "world"])), [.fetchEn]) :=
  (claim_C4_preferred_english_first envEnOk "vid").1 ["Hello", "world"] rfl

/-- C5: If both English track fetches fail with "no transcript", the
Fetcher enumerates available transcript tracks and, for the first track
whose language code is not English, fetches its segments, joins them
with single spaces, passes the joined text together with the track's
human-readable language name to the Translator, and returns the
Translator's output verbatim; if no non-English track exists it proceeds
to the fallback scrape. -/
theorem claim_C5_foreign_track_translation (env : FetchEnv) (vid : String) :
    (∀ m1 m2 tracks t segs,
      env.fetchEn = .error (.noTranscriptFound m1) →
      env.fetchAEn = .error (.noTranscriptFound m2) →
      env.listT = .ok tracks →
      tracks.find? (fun tr => tr.language_code != "en") = some t →
      t.fetch = .ok segs →
      (get_transcript env vid).1 =
        .ok (translate_text env.translatePost (joinSpace segs) t.language) ∧
      FetchCall.translator (joinSpace segs) t.language ∈ (get_transcript env vid).2) ∧
    (∀ m1 m2 tracks,
      env.fetchEn = .error (.noTranscriptFound m1) →
      env.fetchAEn = .error (.noTranscriptFound m2) →
      env.listT = .ok tracks →
      tracks.find? (fun tr => tr.language_code != "en") = none →
      (get_transcript env vid).1 = (get_fallback_captions env.timedtext vid).map .str ∧
      FetchCall.fallback ∈ (get_transcript env vid).2) := by
  constructor
  · intro m1 m2 tracks t segs h1 h2 h3 h4 h5
    constructor <;> simp [get_transcript, h1, h2, h3, h4, h5]
  · intro m1 m2 tracks h1 h2 h3 h4
    constructor <;> simp [get_transcript, h1, h2, h3, h4]

/-- Witness for C5: both English fetches miss, a French track with
`["Bonjour", "le", "monde"]` exists, so the Fetcher returns the
Translator's output for `("Bonjour le monde", "French")`. -/
theorem claim_C5_foreign_track_translation_witness :
    (get_transcript envFrench "vid").1 =
      .ok (translate_text envFrench.translatePost
        (joinSpace ["Bonjour", "le", "monde"]) "French") ∧
    FetchCall.translator (joinSpace ["Bonjour", "le", "monde"]) "French" ∈
      (get_transcript envFrench "vid").2 :=
  (claim_C5_foreign_track_translation envFrench "vid").1 "nt" "nt2"
    [⟨"fr", "French", .ok ["Bonjour", "le", "monde"]⟩]
    ⟨"fr", "French", .ok ["Bonjour", "le", "monde"]⟩
    ["Bonjour", "le", "monde"] rfl rfl rfl rfl rfl

/-! ### Claim C3: routing of the "transcripts disabled" signal -/

/-- C3 counterexample: the claim says a disabled signal at any point
before the fallback scrape skips to the scrape without propagating.  In
the code this holds only for the preferred English fetch: a disabled
signal during the `a.en` fetch is re-raised as a generic
`"Transcript retrieval error"`, and one during track enumeration
propagates as-is to the caller — in both runs the fallback scrape is
never attempted. -/
theorem claim_C3_counterexample :
    (get_transcript envDisabledAEn "vid").1 =
      .error (.generic ("Transcript retrieval error: " ++ "dis")) ∧
    FetchCall.fallback ∉ (get_transcript envDisabledAEn "vid").2 ∧
    (get_transcript envDisabledList "vid").1 = .error (.transcriptsDisabled "dis") ∧
    FetchCall.fallback ∉ (get_transcript envDisabledList "vid").2 :=
  ⟨rfl, by decide, rfl, by decide⟩

/-- C3 amended: only a "transcripts disabled" signal from the preferred
English fetch makes the Fetcher skip to the fallback scrape; a disabled
signal during the auto-generated English fetch is wrapped into a generic
`"Transcript retrieval error"` exception (not routed to the scrape), and
a disabled signal during track enumeration propagates to the caller
unchanged. -/
theorem claim_C3_amended_disabled_routing (env : FetchEnv) (vid : String) :
    (∀ m, env.fetchEn = .error (.transcriptsDisabled m) →
      (get_transcript env vid).1 = (get_fallback_captions env.timedtext vid).map .str ∧
      (get_transcript env vid).2 = [.fetchEn, .fallback]) ∧
    (∀ m m2, env.fetchEn = .error (.noTranscriptFound m) →
      env.fetchAEn = .error (.transcriptsDisabled m2) →
      (get_transcript env vid).1 = .error (.generic ("Transcript retrieval error: " ++ m2)) ∧
      FetchCall.fallback ∉ (get_transcript env vid).2) ∧
    (∀ m m2 m3, env.fetchEn = .error (.noTranscriptFound m) →
      env.fetchAEn = .error (.noTranscriptFound m2) →
      env.listT = .error (.transcriptsDisabled m3) →
      (get_transcript env vid).1 = .error (.transcriptsDisabled m3) ∧
      FetchCall.fallback ∉ (get_transcript env vid).2) := by
  refine ⟨?_, ?_, ?_⟩
  · intro m h
    constructor <;> simp [get_transcript, h]
  · intro m m2 h1 h2
    constructor <;> simp [get_transcript, h1, h2, PyExc.msg]
  · intro m m2 m3 h1 h2 h3
    constructor <;> simp [get_transcript, h1, h2, h3]

/-- Witness for the amended C3: disabled on the preferred English fetch
routes to the scrape, which here answers one caption line `"a"`. -/
theorem claim_C3_amended_disabled_routing_witness :
    (get_transcript envDisabledEn "vid").1 =
      (get_fallback_captions envDisabledEn.timedtext "vid").map JVal.str ∧
    (get_transcript envDisabledEn "vid").2 = [.fetchEn, .fallback] :=
  (claim_C3_amended_disabled_routing envDisabledEn "vid").1 "dis" rfl

/-! ### Claim C6: the fallback scrape -/

/-- C6 counterexample: the claim says `NoTranscriptAvailable` is
signalled whenever "XML parsing yields no usable segments".  But on a
200 response whose body parses to an element with no `text` children,
the code returns the empty string `""` instead of raising. -/
theorem claim_C6_counterexample :
    get_fallback_captions
      (.resp 200 "<transcript></transcript>" (.ok (.elem "transcript" none []))) "vid" =
      .ok "" := rfl

/-- C6 amended: on HTTP 200 with a non-blank body and a successful XML
parse, the scrape returns the non-empty inner texts of the `text`
elements joined with single spaces (the empty string when there is no
usable segment); it signals `NoTranscriptFound` when the status is not
200 or the body is blank, when the XML fails to parse, or when the GET
itself raises. -/
theorem claim_C6_amended_fallback_scrape (o : GetOutcome) (vid : String) :
    (∀ st b root, o = .resp st b (.ok root) → st = 200 → pyStrip b ≠ "" →
      get_fallback_captions o vid = .ok (joinSpace (fallbackTexts root))) ∧
    (∀ st b p, o = .resp st b p → ¬(st = 200 ∧ pyStrip b ≠ "") →
      ∃ m, get_fallback_captions o vid = .error (.noTranscriptFound m)) ∧
    (∀ st b em, o = .resp st b (.error em) → st = 200 → pyStrip b ≠ "" →
      ∃ m, get_fallback_captions o vid = .error (.noTranscriptFound m)) ∧
    (∀ m, o = .raise m →
      ∃ m2, get_fallback_captions o vid = .error (.noTranscriptFound m2)) := by
  refine ⟨?_, ?_, ?_, ?_⟩
  · intro st b root h h200 hb
    subst h
    simp [get_fallback_captions, h200, hb]
  · intro st b p h hcond
    subst h
    refine ⟨"Fallback captions failed for video " ++ vid ++
      ": No transcripts or captions available for video " ++ vid ++ ".", ?_⟩
    simp only [get_fallback_captions]
    rw [if_neg hcond]
  · intro st b em h h200 hb
    subst h
    refine ⟨"Fallback captions failed for video " ++ vid ++ ": " ++ em, ?_⟩
    simp [get_fallback_captions, h200, hb]
  · intro m h
    subst h
    exact ⟨_, rfl⟩

/-- Witness for the amended C6: a 200 response with two caption lines
`a` and `b` yields `"a b"`. -/
theorem claim_C6_amended_fallback_scrape_witness :
    get_fallback_captions
      (.resp 200 "<transcript><text>a</text><text>b</text></transcript>"
        (.ok (.elem "transcript" none
          [.elem "text" (some "a") [], .elem "text" (some "b") []]))) "vid" =
      .ok (joinSpace (fallbackTexts
        (.elem "transcript" none
          [.elem "text" (some "a") [], .elem "text" (some "b") []]))) :=
  (claim_C6_amended_fallback_scrape
    (.resp 200 "<transcript><text>a</text><text>b</text></transcript>"
      (.ok (.elem "transcript" none
        [.elem "text" (some "a") [], .elem "text" (some "b") []]))) "vid").1
    200 "<transcript><text>a</text><text>b</text></transcript>"
    (.elem "transcript" none [.elem "text" (some "a") [], .elem "text" (some "b") []])
    rfl rfl (by decide)

/-! ### Claim C7: the translator's degrade policy -/

/-- C7 counterexample: the claim says any malformed response produces a
placeholder string embedding the failure reason.  But a well-formed 200
JSON response that simply lacks the expected keys (here the empty
object) flows through the `.get` defaults and returns the *original
input text* unchanged — not a placeholder. -/
theorem claim_C7_counterexample :
    translate_text (.resp 200 (.ok (.obj []))) "bonjour" "French" = .str "bonjour" ∧
    ("bonjour".startsWith "Translation failed:") = false :=
  ⟨rfl, rfl⟩

/-- C7 amended: the Translator sends exactly one POST (no retry; the
embedding consumes a single response).  On a successful extraction it
returns the first candidate's first text part; on failures that raise in
Python (network error, non-2xx status, JSON decode failure, wrongly
typed response shape) it returns a `"Translation failed: ..."`
placeholder embedding the reason; but when the response is well-formed
JSON merely missing the expected keys, the dict-level defaults make it
return the original input text instead of a placeholder. -/
theorem claim_C7_amended_translator (post : PostOutcome) (text source_lang : String) :
    (∀ m, post = .raise m →
      translate_text post text source_lang = .str ("Translation failed: " ++ m)) ∧
    (∀ st b, post = .resp st b → 400 ≤ st → st < 600 →
      translate_text post text source_lang = .str ("Translation failed: HTTP " ++ toString st)) ∧
    (∀ st em, post = .resp st (.error em) → ¬(400 ≤ st ∧ st < 600) →
      translate_text post text source_lang = .str ("Translation failed: " ++ em)) ∧
    (∀ st j em, post = .resp st (.ok j) → ¬(400 ≤ st ∧ st < 600) →
      extractText j (.str text) = .error em →
      translate_text post text source_lang = .str ("Translation failed: " ++ em)) ∧
    (∀ st j v, post = .resp st (.ok j) → ¬(400 ≤ st ∧ st < 600) →
      extractText j (.str text) = .ok v →
      translate_text post text source_lang = v) ∧
    (∀ st, post = .resp st (.ok (.obj [])) → ¬(400 ≤ st ∧ st < 600) →
      translate_text post text source_lang = .str text) := by
  refine ⟨?_, ?_, ?_, ?_, ?_, ?_⟩
  · intro m h; subst h; rfl
  · intro st b h h4 h6
    subst h
    simp only [translate_text]
    rw [if_pos ⟨h4, h6⟩]
  · intro st em h hc
    subst h
    simp only [translate_text]
    rw [if_neg hc]
  · intro st j em h hc hx
    subst h
    simp only [translate_text]
    rw [if_neg hc, hx]
  · intro st j v h hc hx
    subst h
    simp only [translate_text]
    rw [if_neg hc, hx]
  · intro st h hc
    subst h
    simp only [translate_text]
    rw [if_neg hc]
    rfl

/-- Witness for the amended C7: a raised POST produces the placeholder
with the network reason embedded. -/
theorem claim_C7_amended_translator_witness :
    translate_text (.raise "net down") "bonjour" "French" =
      .str ("Translation failed: " ++ "net down") :=
  (claim_C7_amended_translator (.raise "net down") "bonjour" "French").1 "net down" rfl

/-! ### Claims C8 and C9: the video-id extractor -/

/-- A successful anchored match of the short-link pattern captures
exactly 11 characters of the class `[a-zA-Z0-9_-]`. -/
theorem shortMatchAt_spec (cs : List Char) (s : String) (h : shortMatchAt cs = some s) :
    s.length = 11 ∧ s.data.all isIdChar := by
  simp only [shortMatchAt] at h
  split_ifs at h with h1 h2
  injection h with h
  subst h
  exact ⟨h2.1, h2.2⟩

/-- A successful regex search of the short-link pattern captures exactly
11 characters of the class `[a-zA-Z0-9_-]`. -/
theorem reSearch_spec : ∀ (cs : List Char) (s : String),
    reSearch cs = some s → s.length = 11 ∧ s.data.all isIdChar := by
  intro cs
  induction cs with
  | nil => intro s h; simp [reSearch] at h
  | cons c rest ih =>
    intro s h
    unfold reSearch at h
    cases hm : shortMatchAt (c :: rest) with
    | some t =>
      rw [hm] at h
      injection h with h
      subst h
      exact shortMatchAt_spec _ _ hm
    | none =>
      rw [hm] at h
      exact ih s h

/-- C8 counterexample: the claim says every extracted VideoID has
exactly 11 URL-safe characters.  But the `v` query-parameter path
returns the value unvalidated: `?v=abc` yields the 3-character `"abc"`,
even though no 11-character identifier occurs in the URL. -/
theorem claim_C8_counterexample :
    get_video_id "https://www.youtube.com/watch?v=abc" = some "abc" ∧
    ¬(("abc" : String).length = 11) :=
  ⟨by decide, by decide⟩

/-- C8 amended: an id captured by the short-link pattern is exactly 11
URL-safe characters, but an id taken from the `v` query parameter is
returned as-is with no length or charset validation; extraction fails
exactly when there is no `v` parameter and no short-link match. -/
theorem claim_C8_amended_videoid_shape (url : String) :
    (∀ p, (parse_qsl (urlQuery url)).find? (fun q => q.1 == "v") = some p →
      get_video_id url = some p.2) ∧
    ((parse_qsl (urlQuery url)).find? (fun q => q.1 == "v") = none →
      ∀ s, get_video_id url = some s → s.length = 11 ∧ s.data.all isIdChar) ∧
    (get_video_id url = none ↔
      (parse_qsl (urlQuery url)).find? (fun q => q.1 == "v") = none ∧
        reSearch url.data = none) := by
  refine ⟨?_, ?_, ?_⟩
  · intro p hp
    simp [get_video_id, hp]
  · intro hv s hs
    rw [get_video_id, hv] at hs
    exact reSearch_spec url.data s hs
  · constructor
    · intro h
      cases hv : (parse_qsl (urlQuery url)).find? (fun q => q.1 == "v") with
      | some p => rw [get_video_id, hv] at h; simp at h
      | none => rw [get_video_id, hv] at h; exact ⟨rfl, h⟩
    · rintro ⟨hv, hr⟩
      rw [get_video_id, hv, hr]

/-- Witness for the amended C8: `?v=abc` goes through the unvalidated
query-parameter path. -/
theorem claim_C8_amended_videoid_shape_witness :
    get_video_id "https://www.youtube.com/watch?v=abc" = some ("v", "abc").2 :=
  (claim_C8_amended_videoid_shape "https://www.youtube.com/watch?v=abc").1 ("v", "abc")
    (by decide)

/-- C9: For every URL string, the Extractor returns the first value of
the `v` query parameter when one exists; otherwise it returns the
captured 11-character id of a short-link pattern (alphanumeric, `-`,
`_`) when one matches; otherwise it signals failure by an absent result.
The embedding is a pure function, so there are no side effects. -/
theorem claim_C9_extractor_precedence (url : String) :
    (∀ p, (parse_qsl (urlQuery url)).find? (fun q => q.1 == "v") = some p →
      get_video_id url = some p.2) ∧
    ((parse_qsl (urlQuery url)).find? (fun q => q.1 == "v") = none →
      get_video_id url = reSearch url.data) ∧
    (∀ s, reSearch url.data = some s → s.length = 11 ∧ s.data.all isIdChar) ∧
    ((parse_qsl (urlQuery url)).find? (fun q => q.1 == "v") = none →
      reSearch url.data = none → get_video_id url = none) := by
  refine ⟨?_, ?_, ?_, ?_⟩
  · intro p hp
    simp [get_video_id, hp]
  · intro hv
    rw [get_video_id, hv]
  · intro s hs
    exact reSearch_spec url.data s hs
  · intro hv hr
    rw [get_video_id, hv, hr]

/-- Witness for C9: a watch URL with an 11-character `v` value, and the
shortlink fallback applying when the query has no `v`. -/
theorem claim_C9_extractor_precedence_witness :
    get_video_id "https://www.youtube.com/watch?v=dQw4w9WgXcQ" = some ("v", "dQw4w9WgXcQ").2 :=
  (claim_C9_extractor_precedence "https://www.youtube.com/watch?v=dQw4w9WgXcQ").1
    ("v", "dQw4w9WgXcQ") (by decide)

/-! ### Claim C1: the endpoint's status mapping -/

/-- C1: For every request to `GET /summary`: a missing or empty `url`
parameter yields HTTP 400 with the "No URL provided." body; a `url`
with no extractable VideoID yields HTTP 400 with the
"Invalid YouTube URL format." body; an empty fetched transcript yields
HTTP 404 with the "Transcript is empty." body; every transcript-related
failure (no transcript, disabled, retrieval error) yields HTTP 404 with
the failure detail in the body; any other internal failure (e.g., a
summarization error) yields HTTP 500 with the fixed generic error body;
success yields HTTP 200 with the summary in the body. -/
theorem claim_C1_endpoint_status_mapping (env : ApiEnv) (arg : Option String) :
    ((arg = none ∨ arg = some "") →
      summary_api env arg = (400, errBody "No URL provided.")) ∧
    (∀ u, arg = some u → u ≠ "" → get_video_id u = none →
      summary_api env arg = (400, errBody "Invalid YouTube URL format.")) ∧
    (∀ u vid, arg = some u → u ≠ "" → get_video_id u = some vid → vid ≠ "" →
      ((∀ t, (get_transcript env.fetch vid).1 = .ok t → t.falsy = true →
        summary_api env arg = (404, errBody "Transcript is empty.")) ∧
      (∀ e, (get_transcript env.fetch vid).1 = .error e → e.isTranscriptError = true →
        summary_api env arg = (404, errBody e.msg)) ∧
      (∀ e, (get_transcript env.fetch vid).1 = .error e → e.isTranscriptError = false →
        summary_api env arg =
          (500, errBody "Internal error occurred. Ensure video has English captions.")) ∧
      (∀ t e, (get_transcript env.fetch vid).1 = .ok t → t.falsy = false →
        summaryResult env.posts = .error e →
        summary_api env arg =
          (500, errBody "Internal error occurred. Ensure video has English captions.")) ∧
      (∀ t s, (get_transcript env.fetch vid).1 = .ok t → t.falsy = false →
        summaryResult env.posts = .ok s →
        summary_api env arg = (200, JVal.obj [("summary", s)])))) := by
  refine ⟨?_, ?_, ?_⟩
  · intro h
    rcases h with rfl | rfl <;> rfl
  · intro u harg hu hvid
    subst harg
    simp only [summary_api, Option.getD_some]
    rw [if_neg hu, hvid]
  · intro u vid harg hu hv hvid
    subst harg
    refine ⟨?_, ?_, ?_, ?_, ?_⟩
    · intro t ht hf
      simp only [summary_api, Option.getD_some]
      rw [if_neg hu, hv]
      simp [hvid, ht, hf]
    · intro e he hte
      simp only [summary_api, Option.getD_some]
      rw [if_neg hu, hv]
      simp [hvid, he, hte]
    · intro e he hte
      simp only [summary_api, Option.getD_some]
      rw [if_neg hu, hv]
      simp [hvid, he, hte]
    · intro t e ht hf hsum
      have hgen : e.isTranscriptError = false := by
        obtain ⟨m, rfl⟩ := summaryResult_error_generic env.posts e hsum
        rfl
      simp only [summary_api, Option.getD_some]
      rw [if_neg hu, hv]
      simp [hvid, ht, hf, hsum, hgen]
    · intro t s ht hf hsum
      simp only [summary_api, Option.getD_some]
      rw [if_neg hu, hv]
      simp [hvid, ht, hf, hsum]

/-- Witness for C1: a well-formed watch URL, a successful English
transcript fetch (`"Hello world"`) and a clean summarizer response
(`"sum"`) produce HTTP 200 with the summary body. -/
theorem claim_C1_endpoint_status_mapping_witness :
    summary_api ⟨envEnOk, postsOk⟩ (some "https://www.youtube.com/watch?v=dQw4w9WgXcQ") =
      (200, JVal.obj [("summary", JVal.str "sum")]) :=
  ((claim_C1_endpoint_status_mapping ⟨envEnOk, postsOk⟩
      (some "https://www.youtube.com/watch?v=dQw4w9WgXcQ")).2.2
    "https://www.youtube.com/watch?v=dQw4w9WgXcQ" "dQw4w9WgXcQ"
    rfl (by decide) (by decide) (by decide)).2.2.2.2
    (.str (joinSpace ["Hello", "world"])) (.str "sum") rfl (by decide) rfl

end YTS
